import Mathlib

/-!
Verification of the REST API middleware chain of
`node-rest-api-boilerplate` (`src/app/routes.js`).

The route table (method, path, ordered middleware, handler) is embedded
directly from `src/app/routes.js`.  The middleware (`authenticate`,
`access-control`, `error-handler`), the controllers and the token codec
live in files of the repository that are only imported by `routes.js`;
those components are modelled from the specification, as marked on each
definition.
-/

/-- A user record of the document store (spec §3: username unique, email
unique, hashed password, role defaulting to "user"). -/
structure User where
  id : String
  username : String
  email : String
  password : String
  role : String
  firstname : String
  lastname : String
  deriving Repr, DecidableEq

/-- A post record (spec §3: text plus owning user reference). -/
structure Post where
  id : String
  text : String
  user : String
  deriving Repr, DecidableEq

/-- The document store: the users and posts collections, plus a counter
used to mint fresh identifiers. -/
structure Store where
  users : List User
  posts : List Post
  nextId : Nat
  deriving Repr, DecidableEq

/-- Modelled from the spec: password hashing is an excluded external
collaborator (spec §1); it is modelled as an injective placeholder. -/
def hashPassword (p : String) : String := p

/-- Failure of the token codec (spec §4.1): signature invalid, token
malformed, or expiry passed. -/
inductive TokenError where
  | invalidToken
  deriving Repr, DecidableEq

/-- A bearer token: either a signed payload carrying a user id, an expiry
and a signature, or a malformed blob (spec §3: a Token encodes a user
identifier and an expiry). -/
inductive Token where
  | signed (uid : String) (exp : Nat) (sig : Nat)
  | malformed (raw : String)
  deriving Repr, DecidableEq

/-- Modelled from the spec: the signing primitive of the Token Codec
(`src/app/...` token code is not under `src/`); an arbitrary concrete
keyed function of the payload. -/
def sign (secret : Nat) (uid : String) (exp : Nat) : Nat :=
  (secret + 1) * (uid.length + 1) * (exp + 1)

/-- Modelled from the spec: the signing secret of the Token Codec. -/
def jwtSecret : Nat := 42

/-- Modelled from the spec: the token lifetime (spec §4.1: tokens are
expiring); an arbitrary positive constant. -/
def tokenTTL : Nat := 3600

/-- Modelled from the spec (§4.1): `issue(identity) -> token` produces a
signed, expiring token embedding the identity's unique id. -/
def issue (secret : Nat) (uid : String) (now : Nat) : Token :=
  .signed uid (now + tokenTTL) (sign secret uid (now + tokenTTL))

/-- Modelled from the spec (§4.1): `verify(token)` fails when the
signature is invalid, the token is malformed, or the expiry has passed;
otherwise it returns the embedded identity id. -/
def verify (secret : Nat) (now : Nat) : Token → Except TokenError String
  | .malformed _ => .error .invalidToken
  | .signed uid exp sig =>
      if sig ≠ sign secret uid exp then .error .invalidToken
      else if exp ≤ now then .error .invalidToken
      else .ok uid

/-- The failure taxonomy of spec §7: `Unauthorized`, `Forbidden`,
`NotFound`, `ValidationError`, and unexpected internal failures (which
carry a stack trace that must never leak). -/
inductive ApiError where
  | unauthorized
  | forbidden
  | notFound
  | validationError (message : String)
  | internal (stack : String)
  deriving Repr, DecidableEq

/-- A response body: a structured JSON error body with a message field,
or one of the success shapes echoed by the handlers (spec §6). -/
inductive RespBody where
  | error (message : String)
  | token (t : Token)
  | user (u : User)
  | users (us : List User)
  | post (p : Post)
  | posts (ps : List Post)
  | success
  | info (s : String)
  deriving Repr, DecidableEq

/-- An HTTP response: status code plus body. -/
structure Response where
  status : Nat
  body : RespBody
  deriving Repr, DecidableEq

/-- Modelled from the spec (§4.5): the terminal error handler
(`src/app/middleware/error-handler` is not under `src/`) maps each known
failure kind to its status code and a structured error body; unknown
failures map to a generic server-error response that never includes the
stack trace. -/
def errorHandler : ApiError → Response
  | .unauthorized => ⟨401, .error "Unauthorized"⟩
  | .forbidden => ⟨403, .error "Forbidden"⟩
  | .notFound => ⟨404, .error "Not Found"⟩
  | .validationError m => ⟨400, .error m⟩
  | .internal _ => ⟨500, .error "Internal Server Error"⟩

/-- The body of an incoming request, one shape per endpoint family. -/
structure LoginBody where
  username : String
  password : String
  deriving Repr, DecidableEq

/-- Fields of a user create/update request body. -/
structure UserBody where
  firstname : String
  lastname : String
  username : String
  email : String
  password : String
  role : Option String
  deriving Repr, DecidableEq

/-- Fields of a post create request body. -/
structure PostBody where
  text : String
  deriving Repr, DecidableEq

/-- The request body as parsed JSON. -/
inductive ReqBody where
  | empty
  | login (l : LoginBody)
  | user (u : UserBody)
  | post (p : PostBody)
  deriving Repr, DecidableEq

/-- An incoming HTTP request: the bearer token from the `Authorization`
header (none when absent), the time of the request, the route path
parameter, and the body. -/
structure Request where
  auth : Option Token
  now : Nat
  param : Option String
  body : ReqBody
  deriving Repr, DecidableEq

/-- The per-request context (spec §3): the request, the store, and the
state attached by the gates and the populator — the authenticated
identity and the resolved resource. -/
structure Ctx where
  req : Request
  store : Store
  currentUser : Option User
  resourceUser : Option User
  resourcePost : Option Post
  deriving Repr, DecidableEq

/-- The initial context of a request dispatch. -/
def Ctx.init (req : Request) (st : Store) : Ctx :=
  ⟨req, st, none, none, none⟩

/-- A middleware stage: transforms the context or fails (spec §9: an
explicit ordered pipeline of request-transforming functions). -/
def Middleware : Type := Ctx → Except ApiError Ctx

/-- A handler: consumes the context and produces a response and the
updated store, or fails. -/
def Handler : Type := Ctx → Except ApiError (Response × Store)

/-- Modelled from the spec (§4.2): the Authenticate Gate
(`src/app/middleware/authenticate` is not under `src/`).  Extracts the
bearer token; if absent, fails `Unauthorized`; if `verify` fails, fails
`Unauthorized`; on success resolves the identity in the store (spec §3:
a token is valid only for identities resolvable in the store) and
attaches it to the context. -/
def authenticate : Middleware := fun c =>
  match c.req.auth with
  | none => .error .unauthorized
  | some tok =>
      match verify jwtSecret c.req.now tok with
      | .error _ => .error .unauthorized
      | .ok uid =>
          match c.store.users.find? (fun u => u.id == uid) with
          | none => .error .unauthorized
          | some u => .ok { c with currentUser := some u }

/-- Modelled from the spec (§4.3 and the §6 route table):
`src/app/middleware/access-control` is not under `src/`.  The gate is
parameterized by a required role and requires that Authenticate has run
and attached an identity; since `routes.js` line 275 places no separate
authenticate stage before it, the gate is modelled as running the
authenticate check itself (the route table demands `token + role=admin`)
and then comparing the attached identity's role, failing `Forbidden` on
mismatch. -/
def accessControl (role : String) : Middleware := fun c =>
  match authenticate c with
  | .error e => .error e
  | .ok c' =>
      match c'.currentUser with
      | none => .error .unauthorized
      | some u => if u.role == role then .ok c' else .error .forbidden

/-- Run an ordered middleware chain; a failure at any stage
short-circuits the remaining stages (spec §5). -/
def runMws : List Middleware → Ctx → Except ApiError Ctx
  | [], c => .ok c
  | m :: ms, c =>
      match m c with
      | .error e => .error e
      | .ok c' => runMws ms c'

/-- The outcome of dispatching one request through a route: the final
response, the resulting store, and whether the handler was invoked. -/
structure Outcome where
  response : Response
  store : Store
  handlerRan : Bool
  deriving Repr, DecidableEq

/-- Dispatch a request through a route's middleware chain and handler,
with the terminal error handler turning any surfaced failure into a
response (spec §2: chain → handler → error handler on failure). -/
def runRoute (mws : List Middleware) (h : Handler) (req : Request) (st : Store) : Outcome :=
  let c := Ctx.init req st
  match runMws mws c with
  | .error e => ⟨errorHandler e, st, false⟩
  | .ok c' =>
      match h c' with
      | .error e => ⟨errorHandler e, c'.store, true⟩
      | .ok (resp, st') => ⟨resp, st', true⟩

/-- Modelled from the spec: create a user (the document mapper behind
`UsersController.create` is not under `src/`).  Enforces the spec §3
invariant: username and email are unique across the collection, a
duplicate fails with `ValidationError`; the role defaults to "user". -/
def Store.createUser (st : Store) (ub : UserBody) : Except ApiError (User × Store) :=
  if st.users.any (fun u => u.username == ub.username) then
    .error (.validationError "username already exists")
  else if st.users.any (fun u => u.email == ub.email) then
    .error (.validationError "email already exists")
  else
    let u : User :=
      ⟨toString st.nextId, ub.username, ub.email, hashPassword ub.password,
        ub.role.getD "user", ub.firstname, ub.lastname⟩
    .ok (u, ⟨u :: st.users, st.posts, st.nextId + 1⟩)

namespace MetaController

/-- Modelled from the spec (§6 route table, GET / is liveness/info):
`src/app/controllers/meta.controller` is not under `src/`. -/
def index : Handler := fun c =>
  .ok (⟨200, .info "node-rest-api-boilerplate"⟩, c.store)

end MetaController

namespace AuthController

/-- Modelled from the spec (§8: login with a stored matching credential
returns a token; a wrong password returns `Unauthorized`):
`src/app/controllers/auth.controller` is not under `src/`. -/
def login : Handler := fun c =>
  match c.req.body with
  | .login l =>
      match c.store.users.find? (fun u => u.username == l.username) with
      | none => .error .unauthorized
      | some u =>
          if u.password == hashPassword l.password then
            .ok (⟨200, .token (issue jwtSecret u.id c.req.now)⟩, c.store)
          else .error .unauthorized
  | _ => .error .unauthorized

end AuthController

namespace UsersController

/-- Modelled from the spec (§6: GET /users is list/search):
`src/app/controllers/users.controller` is not under `src/`. -/
def findAll : Handler := fun c =>
  .ok (⟨200, .users c.store.users⟩, c.store)

/-- Modelled from the spec (§6: POST /users creates a user, §7 duplicate
username/email is a `ValidationError`): not under `src/`. -/
def create : Handler := fun c =>
  match c.req.body with
  | .user ub =>
      match c.store.createUser ub with
      | .error e => .error e
      | .ok (_, st') => .ok (⟨200, .success⟩, st')
  | _ => .error (.validationError "invalid body")

/-- Modelled from the spec (§6: GET /users/me returns the authenticated
user; GET /users/:username returns the populated resource): not under
`src/`. -/
def fetch : Handler := fun c =>
  match c.resourceUser with
  | some u => .ok (⟨200, .user u⟩, c.store)
  | none =>
      match c.currentUser with
      | some u => .ok (⟨200, .user u⟩, c.store)
      | none => .error .unauthorized

/-- Modelled from the spec (§6: PUT /users/me updates the current user):
not under `src/`. -/
def update : Handler := fun c =>
  match c.currentUser, c.req.body with
  | some u, .user ub =>
      let u' : User :=
        { u with firstname := ub.firstname, lastname := ub.lastname }
      .ok (⟨200, .success⟩,
        { c.store with
            users := c.store.users.map (fun v => if v.id == u.id then u' else v) })
  | _, _ => .error .unauthorized

/-- Modelled from the spec (§6: DELETE /users/me deletes the current
user): not under `src/`. -/
def delete : Handler := fun c =>
  match c.currentUser with
  | some u =>
      .ok (⟨200, .success⟩,
        { c.store with users := c.store.users.filter (fun v => v.id != u.id) })
  | none => .error .unauthorized

/-- Modelled from the spec (§4.4): the Resource Populator resolving the
`:username` path parameter; a miss fails with `NotFound`, a hit attaches
the entity to the context.  Not under `src/`. -/
def _populate : Middleware := fun c =>
  match c.req.param with
  | none => .error .notFound
  | some uname =>
      match c.store.users.find? (fun u => u.username == uname) with
      | none => .error .notFound
      | some u => .ok { c with resourceUser := some u }

end UsersController

namespace PostsController

/-- Modelled from the spec (§6: GET /posts is search): not under
`src/`. -/
def search : Handler := fun c =>
  .ok (⟨200, .posts c.store.posts⟩, c.store)

/-- Modelled from the spec (§6: POST /posts creates a post associating
the caller as owner): not under `src/`. -/
def create : Handler := fun c =>
  match c.currentUser, c.req.body with
  | some u, .post pb =>
      let p : Post := ⟨toString c.store.nextId, pb.text, u.id⟩
      .ok (⟨200, .post p⟩,
        ⟨c.store.users, p :: c.store.posts, c.store.nextId + 1⟩)
  | _, _ => .error .unauthorized

/-- Modelled from the spec (§6: GET /posts/:id returns the populated
post): not under `src/`. -/
def fetch : Handler := fun c =>
  match c.resourcePost with
  | some p => .ok (⟨200, .post p⟩, c.store)
  | none => .error .notFound

/-- Modelled from the spec (§6: DELETE /posts/:id removes the post by
id): not under `src/`. -/
def delete : Handler := fun c =>
  match c.req.param with
  | some pid =>
      .ok (⟨200, .success⟩,
        { c.store with posts := c.store.posts.filter (fun p => p.id != pid) })
  | none => .error .notFound

/-- Modelled from the spec (§4.4): the Resource Populator resolving the
`:id` path parameter; a miss fails with `NotFound`.  Not under
`src/`. -/
def _populate : Middleware := fun c =>
  match c.req.param with
  | none => .error .notFound
  | some pid =>
      match c.store.posts.find? (fun p => p.id == pid) with
      | none => .error .notFound
      | some p => .ok { c with resourcePost := some p }

end PostsController

/-- An HTTP method. -/
inductive Method where
  | GET | POST | PUT | DELETE
  deriving Repr, DecidableEq

/-- One row of the route table: method, path, ordered middleware chain,
handler — exactly as composed by `routes.js`. -/
structure RouteEntry where
  method : Method
  path : String
  mws : List Middleware
  handler : Handler

/-- `routes.get('/', MetaController.index)` — routes.js line 14. -/
def rootRoute : RouteEntry := ⟨.GET, "/", [], MetaController.index⟩

/-- `routes.post('/auth/login', AuthController.login)` — line 56. -/
def authLoginRoute : RouteEntry := ⟨.POST, "/auth/login", [], AuthController.login⟩

/-- `routes.get('/users', UsersController.findAll)` — line 80. -/
def getUsersRoute : RouteEntry := ⟨.GET, "/users", [], UsersController.findAll⟩

/-- `routes.post('/users', authenticate, UsersController.create)` — line 107. -/
def postUsersRoute : RouteEntry := ⟨.POST, "/users", [authenticate], UsersController.create⟩

/-- `routes.get('/users/me', authenticate, UsersController.fetch)` — line 126. -/
def getUsersMeRoute : RouteEntry := ⟨.GET, "/users/me", [authenticate], UsersController.fetch⟩

/-- `routes.put('/users/me', authenticate, UsersController.update)` — line 150. -/
def putUsersMeRoute : RouteEntry := ⟨.PUT, "/users/me", [authenticate], UsersController.update⟩

/-- `routes.delete('/users/me', authenticate, UsersController.delete)` — line 169. -/
def deleteUsersMeRoute : RouteEntry := ⟨.DELETE, "/users/me", [authenticate], UsersController.delete⟩

/-- `routes.get('/users/:username', UsersController._populate, UsersController.fetch)` — line 191. -/
def getUserByUsernameRoute : RouteEntry :=
  ⟨.GET, "/users/:username", [UsersController._populate], UsersController.fetch⟩

/-- `routes.get('/posts', PostsController.search)` — line 212. -/
def getPostsRoute : RouteEntry := ⟨.GET, "/posts", [], PostsController.search⟩

/-- `routes.post('/posts', authenticate, PostsController.create)` — line 231. -/
def postPostsRoute : RouteEntry := ⟨.POST, "/posts", [authenticate], PostsController.create⟩

/-- `routes.get('/posts/:id', PostsController._populate, PostsController.fetch)` — line 254. -/
def getPostByIdRoute : RouteEntry :=
  ⟨.GET, "/posts/:id", [PostsController._populate], PostsController.fetch⟩

/-- `routes.delete('/posts/:id', authenticate, PostsController.delete)` — line 272. -/
def deletePostByIdRoute : RouteEntry :=
  ⟨.DELETE, "/posts/:id", [authenticate], PostsController.delete⟩

/-- `routes.get('/admin', accessControl('admin'), MetaController.index)` — line 275. -/
def adminRoute : RouteEntry := ⟨.GET, "/admin", [accessControl "admin"], MetaController.index⟩

/-- The full route table of `routes.js`, in source order. -/
def routes : List RouteEntry :=
  [rootRoute, authLoginRoute, getUsersRoute, postUsersRoute, getUsersMeRoute,
   putUsersMeRoute, deleteUsersMeRoute, getUserByUsernameRoute, getPostsRoute,
   postPostsRoute, getPostByIdRoute, deletePostByIdRoute, adminRoute]

/-- Dispatch a request through one route table entry. -/
def runEntry (e : RouteEntry) (req : Request) (st : Store) : Outcome :=
  runRoute e.mws e.handler req st

/-- Whether the request carries a bearer token that `verify` accepts
(spec §4.2: header present and token verification succeeds). -/
def hasValidToken (req : Request) : Bool :=
  match req.auth with
  | none => false
  | some t =>
      match verify jwtSecret req.now t with
      | .error _ => false
      | .ok _ => true

/-- Whether the authenticate gate will succeed: a valid token whose
identity resolves in the store. -/
def authSucceeds (req : Request) (st : Store) : Bool :=
  match req.auth with
  | none => false
  | some t =>
      match verify jwtSecret req.now t with
      | .error _ => false
      | .ok uid => st.users.any (fun u => u.id == uid)

/-- Whether the `:username` route parameter resolves to a stored user. -/
def usernameResolves (req : Request) (st : Store) : Bool :=
  match req.param with
  | none => false
  | some s => st.users.any (fun u => u.username == s)

/-- Whether the `:id` route parameter resolves to a stored post. -/
def postIdResolves (req : Request) (st : Store) : Bool :=
  match req.param with
  | none => false
  | some s => st.posts.any (fun p => p.id == s)

/-- Username and email uniqueness across the users collection (spec §3
invariant). -/
def UniqueUsers (us : List User) : Prop :=
  us.Pairwise (fun a b => a.username ≠ b.username ∧ a.email ≠ b.email)

/-- When the request carries no token that `verify` accepts, the
authenticate gate fails with `Unauthorized`. -/
theorem authenticate_fail (req : Request) (st : Store)
    (hbad : hasValidToken req = false) :
    authenticate (Ctx.init req st) = .error ApiError.unauthorized := by
  cases hreq : req.auth with
  | none => simp [authenticate, Ctx.init, hreq]
  | some t =>
      simp only [hasValidToken, hreq] at hbad
      cases hv : verify jwtSecret req.now t with
      | error e => simp [authenticate, Ctx.init, hreq, hv]
      | ok uid => rw [hv] at hbad; simp at hbad

/-- A route whose chain is just the authenticate gate rejects a request
without a valid token: 401 response, handler not run, store unchanged. -/
theorem runRoute_auth_fail (h : Handler) (req : Request) (st : Store)
    (hbad : hasValidToken req = false) :
    runRoute [authenticate] h req st = ⟨errorHandler .unauthorized, st, false⟩ := by
  simp [runRoute, runMws, authenticate_fail req st hbad]

/-- When the authenticate gate succeeds, the resulting context is the
initial one with an identity attached. -/
theorem authenticate_ok_of_authSucceeds (req : Request) (st : Store)
    (h : authSucceeds req st = true) :
    ∃ u : User,
      authenticate (Ctx.init req st) = .ok { Ctx.init req st with currentUser := some u } := by
  cases hreq : req.auth with
  | none => simp [authSucceeds, hreq] at h
  | some t =>
      simp only [authSucceeds, hreq] at h
      cases hv : verify jwtSecret req.now t with
      | error e => rw [hv] at h; simp at h
      | ok uid =>
          rw [hv] at h
          have hs : (st.users.find? (fun u => u.id == uid)).isSome := by
            rw [List.find?_isSome]
            exact List.any_eq_true.mp h
          cases hfind : st.users.find? (fun u => u.id == uid) with
          | none => rw [hfind] at hs; simp at hs
          | some u =>
              exact ⟨u, by simp [authenticate, Ctx.init, hreq, hv, hfind]⟩

/-- C4: for every identity id, `verify (issue id)` succeeds and returns
the id strictly before the expiry; at or after the expiry it fails with
`InvalidToken`, as does any token with an invalid signature and any
malformed token. -/
theorem token_codec_roundtrip (uid : String) (t0 t : Nat) :
    (t < t0 + tokenTTL →
      verify jwtSecret t (issue jwtSecret uid t0) = .ok uid) ∧
    (t0 + tokenTTL ≤ t →
      verify jwtSecret t (issue jwtSecret uid t0) = .error .invalidToken) ∧
    (∀ u e s, s ≠ sign jwtSecret u e →
      verify jwtSecret t (Token.signed u e s) = .error .invalidToken) ∧
    (∀ raw, verify jwtSecret t (Token.malformed raw) = .error .invalidToken) := by
  refine ⟨?_, ?_, ?_, ?_⟩
  · intro h
    have hne : ¬ (t0 + tokenTTL ≤ t) := by omega
    simp [issue, verify, hne]
  · intro h
    simp [issue, verify, h]
  · intro u e s hs
    simp [verify, hs]
  · intro raw
    simp [verify]

/-- Witness for C4 at a concrete identity and times. -/
theorem token_codec_roundtrip_witness :
    verify jwtSecret 100 (issue jwtSecret "u1" 0) = .ok "u1" ∧
    verify jwtSecret 3600 (issue jwtSecret "u1" 0) = .error .invalidToken :=
  ⟨(token_codec_roundtrip "u1" 0 100).1 (by decide),
   (token_codec_roundtrip "u1" 0 3600).2.1 (by decide)⟩

/-- C5: the error handler is the terminal stage: a failure in the chain
or in the handler becomes the response `errorHandler` assigns to it;
each known failure kind maps to its status code with a structured error
body, and internal failures map to a generic 500 response that never
contains the stack trace. -/
theorem error_handler_terminal (mws : List Middleware) (h : Handler)
    (req : Request) (st : Store) :
    (∀ e, runMws mws (Ctx.init req st) = .error e →
      runRoute mws h req st = ⟨errorHandler e, st, false⟩) ∧
    (∀ c' e, runMws mws (Ctx.init req st) = .ok c' → h c' = .error e →
      runRoute mws h req st = ⟨errorHandler e, c'.store, true⟩) ∧
    errorHandler .unauthorized = ⟨401, .error "Unauthorized"⟩ ∧
    errorHandler .forbidden = ⟨403, .error "Forbidden"⟩ ∧
    errorHandler .notFound = ⟨404, .error "Not Found"⟩ ∧
    (∀ m, errorHandler (.validationError m) = ⟨400, .error m⟩) ∧
    (∀ s, errorHandler (.internal s) = ⟨500, .error "Internal Server Error"⟩) := by
  refine ⟨?_, ?_, rfl, rfl, rfl, fun m => rfl, fun s => rfl⟩
  · intro e he
    simp [runRoute, he]
  · intro c' e hok he
    simp [runRoute, hok, he]

/-- Witness for C5: a concrete request with no token dispatched through
the authenticate gate reaches the error handler. -/
theorem error_handler_terminal_witness :
    runRoute [authenticate] MetaController.index ⟨none, 0, none, .empty⟩ ⟨[], [], 0⟩
      = ⟨errorHandler .unauthorized, ⟨[], [], 0⟩, false⟩ :=
  (error_handler_terminal [authenticate] MetaController.index
    ⟨none, 0, none, .empty⟩ ⟨[], [], 0⟩).1 .unauthorized rfl

/-- C1: on GET /admin a request without a valid token fails
`Unauthorized` before the handler; an authenticated identity with role
"user" fails `Forbidden`; an identity with role "admin" passes both
gates and the handler runs — the authenticate check runs and attaches
the identity before the role is consulted. -/
theorem admin_route_gates (req : Request) (st : Store) :
    (hasValidToken req = false →
      runEntry adminRoute req st = ⟨errorHandler .unauthorized, st, false⟩) ∧
    (∀ tok u, req.auth = some tok →
      verify jwtSecret req.now tok = .ok u.id →
      st.users.find? (fun v => v.id == u.id) = some u →
      (u.role = "user" →
        runEntry adminRoute req st = ⟨errorHandler .forbidden, st, false⟩) ∧
      (u.role = "admin" →
        runEntry adminRoute req st =
          ⟨⟨200, .info "node-rest-api-boilerplate"⟩, st, true⟩)) := by
  constructor
  · intro hbad
    have hauth := authenticate_fail req st hbad
    simp [runEntry, adminRoute, runRoute, runMws, accessControl, hauth]
  · intro tok u hreq hv hfind
    have hauth : authenticate ⟨req, st, none, none, none⟩
        = .ok ⟨req, st, some u, none, none⟩ := by
      simp [authenticate, hreq, hv, hfind]
    constructor
    · intro hrole
      simp [runEntry, adminRoute, runRoute, runMws, accessControl, Ctx.init, hauth, hrole]
    · intro hrole
      simp [runEntry, adminRoute, runRoute, runMws, accessControl, Ctx.init, hauth, hrole,
        MetaController.index]

/-- Witness for C1: a concrete admin identity passes both gates and
receives the handler's response. -/
theorem admin_route_gates_witness :
    runEntry adminRoute
      ⟨some (issue jwtSecret "1" 0), 5, none, .empty⟩
      ⟨[⟨"1", "root", "root@x", "pw", "admin", "", ""⟩], [], 2⟩
    = ⟨⟨200, .info "node-rest-api-boilerplate"⟩,
        ⟨[⟨"1", "root", "root@x", "pw", "admin", "", ""⟩], [], 2⟩, true⟩ :=
  ((admin_route_gates ⟨some (issue jwtSecret "1" 0), 5, none, .empty⟩
      ⟨[⟨"1", "root", "root@x", "pw", "admin", "", ""⟩], [], 2⟩).2
    (issue jwtSecret "1" 0)
    ⟨"1", "root", "root@x", "pw", "admin", "", ""⟩ rfl rfl rfl).2 rfl

/-- C2: every route whose chain is the authenticate gate (GET/PUT/DELETE
/users/me, POST /posts, DELETE /posts/:id) rejects a request without a
valid bearer token with `Unauthorized`; the handler never runs and the
store is unchanged. -/
theorem protected_routes_unauthorized (req : Request) (st : Store)
    (hbad : hasValidToken req = false) :
    ∀ e ∈ [getUsersMeRoute, putUsersMeRoute, deleteUsersMeRoute, postPostsRoute,
           deletePostByIdRoute],
      runEntry e req st = ⟨errorHandler .unauthorized, st, false⟩ := by
  intro e he
  fin_cases he <;> exact runRoute_auth_fail _ req st hbad

/-- Witness for C2: a concrete tokenless request to GET /users/me. -/
theorem protected_routes_unauthorized_witness :
    runEntry getUsersMeRoute ⟨none, 7, none, .empty⟩ ⟨[], [], 0⟩
      = ⟨errorHandler .unauthorized, ⟨[], [], 0⟩, false⟩ :=
  protected_routes_unauthorized ⟨none, 7, none, .empty⟩ ⟨[], [], 0⟩ rfl
    getUsersMeRoute (List.mem_cons_self _ _)

/-- C3: on the populator routes (GET /users/:username and GET
/posts/:id), a path parameter that resolves to no stored entity yields
`NotFound` before the handler: the handler never runs and the store is
unchanged. -/
theorem populator_miss_notfound (req : Request) (st : Store) :
    (usernameResolves req st = false →
      runEntry getUserByUsernameRoute req st = ⟨errorHandler .notFound, st, false⟩) ∧
    (postIdResolves req st = false →
      runEntry getPostByIdRoute req st = ⟨errorHandler .notFound, st, false⟩) := by
  constructor
  · intro hmiss
    have hpop : UsersController._populate (Ctx.init req st) = .error .notFound := by
      cases hp : req.param with
      | none => simp [UsersController._populate, Ctx.init, hp]
      | some s =>
          simp only [usernameResolves, hp] at hmiss
          have hfind : st.users.find? (fun u => u.username == s) = none := by
            rw [List.find?_eq_none]
            exact List.any_eq_false.mp hmiss
          simp [UsersController._populate, Ctx.init, hp, hfind]
    simp [runEntry, getUserByUsernameRoute, runRoute, runMws, hpop]
  · intro hmiss
    have hpop : PostsController._populate (Ctx.init req st) = .error .notFound := by
      cases hp : req.param with
      | none => simp [PostsController._populate, Ctx.init, hp]
      | some s =>
          simp only [postIdResolves, hp] at hmiss
          have hfind : st.posts.find? (fun p => p.id == s) = none := by
            rw [List.find?_eq_none]
            exact List.any_eq_false.mp hmiss
          simp [PostsController._populate, Ctx.init, hp, hfind]
    simp [runEntry, getPostByIdRoute, runRoute, runMws, hpop]

/-- Witness for C3: a concrete unknown username yields 404 with the
handler not run. -/
theorem populator_miss_notfound_witness :
    runEntry getUserByUsernameRoute ⟨none, 0, some "ghost", .empty⟩ ⟨[], [], 0⟩
      = ⟨errorHandler .notFound, ⟨[], [], 0⟩, false⟩ :=
  (populator_miss_notfound ⟨none, 0, some "ghost", .empty⟩ ⟨[], [], 0⟩).1 rfl

/-- C6: POST /auth/login with a stored matching credential returns a
signed token for that user; with the wrong password it fails
`Unauthorized` and the response carries no token. -/
theorem login_credentials (req : Request) (st : Store) (l : LoginBody) (u : User)
    (hbody : req.body = .login l)
    (hfind : st.users.find? (fun v => v.username == l.username) = some u) :
    (u.password = hashPassword l.password →
      runEntry authLoginRoute req st =
        ⟨⟨200, .token (issue jwtSecret u.id req.now)⟩, st, true⟩) ∧
    (u.password ≠ hashPassword l.password →
      runEntry authLoginRoute req st = ⟨errorHandler .unauthorized, st, true⟩) := by
  constructor
  · intro hpw
    simp [runEntry, authLoginRoute, runRoute, runMws, AuthController.login, Ctx.init,
      hbody, hfind, hpw]
  · intro hpw
    simp [runEntry, authLoginRoute, runRoute, runMws, AuthController.login, Ctx.init,
      hbody, hfind, hpw]

/-- Witness for C6: the spec's example credentials succeed with a
token. -/
theorem login_credentials_witness :
    runEntry authLoginRoute ⟨none, 3, none, .login ⟨"john", "password1"⟩⟩
      ⟨[⟨"7", "john", "john@x", "password1", "user", "", ""⟩], [], 8⟩
      = ⟨⟨200, .token (issue jwtSecret "7" 3)⟩,
          ⟨[⟨"7", "john", "john@x", "password1", "user", "", ""⟩], [], 8⟩, true⟩ :=
  (login_credentials ⟨none, 3, none, .login ⟨"john", "password1"⟩⟩
    ⟨[⟨"7", "john", "john@x", "password1", "user", "", ""⟩], [], 8⟩
    ⟨"john", "password1"⟩ ⟨"7", "john", "john@x", "password1", "user", "", ""⟩
    rfl rfl).1 rfl

/-- C7: username and email uniqueness is preserved: a create naming an
existing username (or email) fails with `ValidationError` (so nothing is
inserted), and a successful create keeps the collection pairwise unique. -/
theorem user_uniqueness_invariant (st : Store) (ub : UserBody) :
    ((st.users.any fun u => u.username == ub.username) = true →
      st.createUser ub = .error (.validationError "username already exists")) ∧
    ((st.users.any fun u => u.username == ub.username) = false →
      (st.users.any fun u => u.email == ub.email) = true →
      st.createUser ub = .error (.validationError "email already exists")) ∧
    (∀ u st', st.createUser ub = .ok (u, st') →
      UniqueUsers st.users → UniqueUsers st'.users) := by
  refine ⟨?_, ?_, ?_⟩
  · intro h1
    simp [Store.createUser, h1]
  · intro h1 h2
    simp [Store.createUser, h1, h2]
  · intro u st' hok huniq
    cases h1 : (st.users.any fun v => v.username == ub.username) with
    | true => simp [Store.createUser, h1] at hok
    | false =>
        cases h2 : (st.users.any fun v => v.email == ub.email) with
        | true => simp [Store.createUser, h1, h2] at hok
        | false =>
            simp [Store.createUser, h1, h2] at hok
            obtain ⟨hu', hst'⟩ := hok
            subst hst'
            have hu1 := List.any_eq_false.mp h1
            have he1 := List.any_eq_false.mp h2
            simp only [beq_iff_eq] at hu1 he1
            refine List.Pairwise.cons ?_ huniq
            intro b hb
            exact ⟨fun hh => hu1 b hb hh.symm, fun hh => he1 b hb hh.symm⟩

/-- Witness for C7: a second create with the username "john" fails with
a validation error. -/
theorem user_uniqueness_invariant_witness :
    Store.createUser ⟨[⟨"0", "john", "john@x", "pw", "user", "", ""⟩], [], 1⟩
      ⟨"J", "D", "john", "other@x", "pw2", none⟩
      = .error (.validationError "username already exists") :=
  (user_uniqueness_invariant ⟨[⟨"0", "john", "john@x", "pw", "user", "", ""⟩], [], 1⟩
    ⟨"J", "D", "john", "other@x", "pw2", none⟩).1 rfl

/-- C8: the POST /users chain of `routes.js` line 107 contains the
authenticate gate, so a request without a valid token fails
`Unauthorized` before `UsersController.create` runs and no user is
created. -/
theorem post_users_requires_token (req : Request) (st : Store)
    (hbad : hasValidToken req = false) :
    postUsersRoute.mws = [authenticate] ∧
    runEntry postUsersRoute req st = ⟨errorHandler .unauthorized, st, false⟩ := by
  refine ⟨rfl, ?_⟩
  exact runRoute_auth_fail UsersController.create req st hbad

/-- Witness for C8: a concrete tokenless create request is rejected with
the store unchanged. -/
theorem post_users_requires_token_witness :
    runEntry postUsersRoute
      ⟨none, 0, none, .user ⟨"J", "D", "new", "new@x", "pw", none⟩⟩ ⟨[], [], 0⟩
      = ⟨errorHandler .unauthorized, ⟨[], [], 0⟩, false⟩ :=
  (post_users_requires_token
    ⟨none, 0, none, .user ⟨"J", "D", "new", "new@x", "pw", none⟩⟩ ⟨[], [], 0⟩ rfl).2

/-- C9: the DELETE /posts/:id chain of `routes.js` line 272 is only the
authenticate gate — no populator and no access-control stage — so for
every authenticated request the handler runs, regardless of whether a
post with that id exists and of who owns it. -/
theorem delete_post_no_populator (req : Request) (st : Store)
    (hok : authSucceeds req st = true) :
    deletePostByIdRoute.mws = [authenticate] ∧
    (runEntry deletePostByIdRoute req st).handlerRan = true ∧
    (∀ pid, req.param = some pid →
      runEntry deletePostByIdRoute req st =
        ⟨⟨200, .success⟩,
          { st with posts := st.posts.filter (fun p => p.id != pid) }, true⟩) := by
  obtain ⟨u, hu⟩ := authenticate_ok_of_authSucceeds req st hok
  refine ⟨rfl, ?_, ?_⟩
  · simp only [runEntry, deletePostByIdRoute, runRoute, runMws, hu]
    cases hd : PostsController.delete { Ctx.init req st with currentUser := some u } with
    | error e => simp [hd]
    | ok r => cases r with | mk resp st' => simp [hd]
  · intro pid hpid
    have hu' := hu
    simp only [Ctx.init] at hu'
    simp [runEntry, deletePostByIdRoute, runRoute, runMws, hu', PostsController.delete,
      Ctx.init, hpid]

/-- Witness for C9: a valid token and a post id that matches nothing in
the store still reach the handler, which answers success. -/
theorem delete_post_no_populator_witness :
    runEntry deletePostByIdRoute
      ⟨some (issue jwtSecret "1" 0), 5, some "99", .empty⟩
      ⟨[⟨"1", "ann", "ann@x", "pw", "user", "", ""⟩], [], 2⟩
      = ⟨⟨200, .success⟩, ⟨[⟨"1", "ann", "ann@x", "pw", "user", "", ""⟩], [], 2⟩, true⟩ := by
  have h := (delete_post_no_populator
    ⟨some (issue jwtSecret "1" 0), 5, some "99", .empty⟩
    ⟨[⟨"1", "ann", "ann@x", "pw", "user", "", ""⟩], [], 2⟩ rfl).2.2 "99" rfl
  simpa using h

/-- The authenticate gate only attaches the identity: the store and the
request of the context are unchanged. -/
theorem authenticate_preserves (c c' : Ctx) (h : authenticate c = .ok c') :
    c'.store = c.store ∧ c'.req = c.req := by
  unfold authenticate at h
  split at h
  · exact absurd h (by simp)
  · split at h
    · exact absurd h (by simp)
    · split at h
      · exact absurd h (by simp)
      · injection h with h
        subst h
        exact ⟨rfl, rfl⟩

/-- The access-control gate is side-effect-free: the store and the
request of the context are unchanged. -/
theorem accessControl_preserves (role : String) (c c' : Ctx)
    (h : accessControl role c = .ok c') : c'.store = c.store ∧ c'.req = c.req := by
  unfold accessControl at h
  split at h
  · exact absurd h (by simp)
  · rename_i c0 ha
    split at h
    · exact absurd h (by simp)
    · split at h
      · injection h with h
        subst h
        exact authenticate_preserves c c0 ha
      · exact absurd h (by simp)

/-- A one-stage chain is the stage itself. -/
theorem runMws_singleton (m : Middleware) (c : Ctx) : runMws [m] c = m c := by
  simp only [runMws]
  cases m c <;> rfl

/-- C10: GET / and GET /admin dispatch to the same handler
(`MetaController.index`, `routes.js` lines 14 and 275); whenever the
admin gate passes, the two routes produce identical outcomes on the same
store — the endpoints differ only in the gate. -/
theorem admin_root_same_handler (req : Request) (st : Store) :
    adminRoute.handler = rootRoute.handler ∧
    ∀ c', runMws adminRoute.mws (Ctx.init req st) = .ok c' →
      runEntry adminRoute req st = runEntry rootRoute req st := by
  refine ⟨rfl, ?_⟩
  intro c' hc
  rw [show adminRoute.mws = [accessControl "admin"] from rfl, runMws_singleton] at hc
  obtain ⟨hstore, -⟩ := accessControl_preserves "admin" _ _ hc
  simp only [Ctx.init] at hstore hc
  simp [runEntry, adminRoute, rootRoute, runRoute, runMws_singleton, runMws, hc,
    MetaController.index, hstore, Ctx.init]

/-- Witness for C10: on a concrete store with an admin identity, GET
/admin and GET / return the same outcome. -/
theorem admin_root_same_handler_witness :
    runEntry adminRoute ⟨some (issue jwtSecret "9" 0), 5, none, .empty⟩
      ⟨[⟨"9", "boss", "boss@x", "pw", "admin", "", ""⟩], [], 1⟩
    = runEntry rootRoute ⟨some (issue jwtSecret "9" 0), 5, none, .empty⟩
      ⟨[⟨"9", "boss", "boss@x", "pw", "admin", "", ""⟩], [], 1⟩ :=
  (admin_root_same_handler ⟨some (issue jwtSecret "9" 0), 5, none, .empty⟩
    ⟨[⟨"9", "boss", "boss@x", "pw", "admin", "", ""⟩], [], 1⟩).2
    ⟨⟨some (issue jwtSecret "9" 0), 5, none, .empty⟩,
      ⟨[⟨"9", "boss", "boss@x", "pw", "admin", "", ""⟩], [], 1⟩,
      some ⟨"9", "boss", "boss@x", "pw", "admin", "", ""⟩, none, none⟩ rfl
